import Mathlib

/-!
Shallow embedding of the `yfp` algebraic-value library (src/maybe.ts and
src/result.ts): an optionality container (`Maybe`) and a fallible-result
container (`Result`), both implemented in the source as frozen class
instances carrying a boolean discriminant and payload slots, together with
their JSON wire forms and namespace helpers.

JavaScript is dynamically typed and the source relies on runtime shape
checks (`isMaybe`, `isResult`, `typeof`, the `in` operator, truthiness),
so the embedding works over a universe `JSVal` of runtime values.
`internalMaybe` instances are the `maybeVal` constructor (fields `isSome`,
`value`), `internalResult` instances are the `resultVal` constructor
(fields `isOk`, `value`, `error`); plain objects carry an association list
of own properties.  Thrown exceptions are modelled as `Except.error` of
the thrown message; JS numbers are modelled as integers plus a separate
`NaN` value, which suffices for the truthiness distinctions the library
inspects.
-/

namespace Yfp

/-- A JavaScript runtime value, restricted to the shapes the library
constructs or inspects.  `maybeVal` is an `internalMaybe` instance
(runtime fields `isSome` and `value`); `resultVal` is an `internalResult`
instance (runtime fields `isOk`, `value`, `error`; the constructor leaves
the slot of the inactive variant `undefined`). -/
inductive JSVal where
  | null
  | undefined
  | bool (b : Bool)
  | num (n : Int)
  | nan
  | str (s : String)
  | maybeVal (isSome : Bool) (value : JSVal)
  | resultVal (isOk : Bool) (value : JSVal) (error : JSVal)
  | obj (fields : List (String × JSVal))
  | arr (elems : List JSVal)

/-- JS `ToBoolean` (truthiness): `null`, `undefined`, `false`, `0`, `NaN`
and the empty string are falsy; every other value, objects included, is
truthy. -/
def toBool : JSVal → Bool
  | .null => false
  | .undefined => false
  | .bool b => b
  | .num n => n != 0
  | .nan => false
  | .str s => s != ""
  | .maybeVal _ _ => true
  | .resultVal _ _ _ => true
  | .obj _ => true
  | .arr _ => true

/-- `typeof v === "object"`: true for `null`, class instances, plain
objects and arrays. -/
def typeofObject : JSVal → Bool
  | .null => true
  | .maybeVal _ _ => true
  | .resultVal _ _ _ => true
  | .obj _ => true
  | .arr _ => true
  | _ => false

/-- `typeof v === "boolean"`. -/
def typeofBoolean : JSVal → Bool
  | .bool _ => true
  | _ => false

/-- `v === null`. -/
def isNullV : JSVal → Bool
  | .null => true
  | _ => false

/-- The `in` operator: does the value have the named property?
`internalMaybe` instances expose `isSome`, `value` and the `isNone`
getter; `internalResult` instances expose `isOk`, `value`, `error` and
the `isErr` getter; plain objects expose their own fields. -/
def hasProp (v : JSVal) (k : String) : Bool :=
  match v with
  | .maybeVal _ _ => k == "isSome" || k == "isNone" || k == "value"
  | .resultVal _ _ _ => k == "isOk" || k == "isErr" || k == "value" || k == "error"
  | .obj fields => fields.any (fun p => p.1 == k)
  | _ => false

/-- Property access `v[k]`: a missing property reads as `undefined`.
The `isNone` / `isErr` getters compute the negated discriminant, exactly
as the source getters do. -/
def getProp (v : JSVal) (k : String) : JSVal :=
  match v with
  | .maybeVal s value =>
    if k == "isSome" then .bool s
    else if k == "isNone" then .bool (!s)
    else if k == "value" then value
    else .undefined
  | .resultVal ok value error =>
    if k == "isOk" then .bool ok
    else if k == "isErr" then .bool (!ok)
    else if k == "value" then value
    else if k == "error" then error
    else .undefined
  | .obj fields =>
    match fields.find? (fun p => p.1 == k) with
    | some p => p.2
    | none => .undefined
  | _ => .undefined

/-- `Some(value)`: `new internalMaybe(true, value)`, frozen. -/
def Some (value : JSVal) : JSVal := .maybeVal true value

/-- `None`: the shared `new internalMaybe(false)` singleton; its `value`
slot is `undefined`. -/
def None : JSVal := .maybeVal false .undefined

/-- `Ok(value)`: `new internalResult(true, value, undefined)`; the
constructor populates only the `value` slot. -/
def Ok (value : JSVal) : JSVal := .resultVal true value .undefined

/-- `Err(error)`: `new internalResult(false, undefined, error)`; the
constructor populates only the `error` slot. -/
def Err (error : JSVal) : JSVal := .resultVal false .undefined error

/-- `isMaybe(obj)` from maybe.ts: `typeof obj === "object" && obj !== null
&& "isSome" in obj && typeof obj.isSome === "boolean"`. -/
def isMaybe (o : JSVal) : Bool :=
  typeofObject o && !isNullV o && hasProp o "isSome" && typeofBoolean (getProp o "isSome")

/-- `isResult(obj)` from result.ts: `typeof obj === "object" && obj !== null
&& "isOk" in obj && typeof obj.isOk === "boolean"`. -/
def isResult (o : JSVal) : Bool :=
  typeofObject o && !isNullV o && hasProp o "isOk" && typeofBoolean (getProp o "isOk")

/-- `internalMaybe.unwrap`: returns the payload when present, otherwise
throws `"Tried to unwrap None"`.  The catch-all arm models the JS
`TypeError` raised when the method is invoked on a non-instance; the
library's typed API never reaches it. -/
def internalMaybe.unwrap : JSVal → Except String JSVal
  | .maybeVal s v => if s then .ok v else .error "Tried to unwrap None"
  | _ => .error "TypeError: unwrap is not a function"

/-- `internalMaybe.json`: `{"#some": value}` when present, `null` when
absent. -/
def internalMaybe.json : JSVal → JSVal
  | .maybeVal s v => if s then .obj [("#some", v)] else .null
  | _ => .undefined

/-- `internalMaybe.flatten`: returns `None` when absent; otherwise throws
unless the payload passes `isMaybe`; then collapses by reading the
payload's `isNone` property. -/
def internalMaybe.flatten : JSVal → Except String JSVal
  | .maybeVal s v =>
    if !s then .ok None
    else if !isMaybe v then .error "Called flatten() on non-Maybe<Maybe<_>>"
    else if toBool (getProp v "isNone") then .ok None
    else .ok v
  | _ => .error "TypeError: flatten is not a function"

/-- `Maybe.parse`: `null` decodes to the `None` singleton, anything else
to `Some` of its `"#some"` property. -/
def Maybe.parse : JSVal → JSVal
  | .null => None
  | o => Some (getProp o "#some")

/-- `Maybe.falsy`: `None` when the argument is falsy, otherwise `Some` of
it. -/
def Maybe.falsy (value : JSVal) : JSVal :=
  if !toBool value then None else Some value

/-- `Maybe.nullish`: `None` exactly when the argument is `null` or
`undefined`, otherwise `Some` of it. -/
def Maybe.nullish : JSVal → JSVal
  | .null => None
  | .undefined => None
  | v => Some v

/-- `internalResult.unwrap`: returns the success payload or throws
`"Tried to unwrap Err"`. -/
def internalResult.unwrap : JSVal → Except String JSVal
  | .resultVal ok v _ => if ok then .ok v else .error "Tried to unwrap Err"
  | _ => .error "TypeError: unwrap is not a function"

/-- `internalResult.unwrapErr`: returns the error payload (`isErr` is the
negated discriminant) or throws `"Tried to unwrapErr Ok"`. -/
def internalResult.unwrapErr : JSVal → Except String JSVal
  | .resultVal ok _ e => if !ok then .ok e else .error "Tried to unwrapErr Ok"
  | _ => .error "TypeError: unwrapErr is not a function"

/-- `internalResult.map`: applies `f` to the success payload, or returns
the receiver itself unchanged on the error variant. -/
def internalResult.map (self : JSVal) (f : JSVal → JSVal) : JSVal :=
  match self with
  | .resultVal ok v _ => if ok then Ok (f v) else self
  | _ => .undefined

/-- `internalResult.mapErr`: applies `f` to the error payload, or returns
the receiver itself unchanged on the success variant. -/
def internalResult.mapErr (self : JSVal) (f : JSVal → JSVal) : JSVal :=
  match self with
  | .resultVal ok _ e => if !ok then Err (f e) else self
  | _ => .undefined

/-- `internalResult.flatten`: an error receiver is returned as-is without
touching its payload; a success receiver throws unless its payload passes
`isResult`, and otherwise returns the payload. -/
def internalResult.flatten : JSVal → Except String JSVal
  | .resultVal ok v e =>
    if !ok then .ok (.resultVal ok v e)
    else if !isResult v then .error "Called flatten() on non-Result<Result<_>>"
    else .ok v
  | _ => .error "TypeError: flatten is not a function"

/-- `internalResult.json`: `{"#ok": value}` on success, `{"#err": error}`
on failure. -/
def internalResult.json : JSVal → JSVal
  | .resultVal ok v e => if ok then .obj [("#ok", v)] else .obj [("#err", e)]
  | _ => .undefined

/-- `Result.parse`: dispatches on `"#ok" in ser`; decodes to `Ok` of the
`"#ok"` property when present, else to `Err` of the `"#err"` property. -/
def Result.parse (ser : JSVal) : JSVal :=
  if hasProp ser "#ok" then Ok (getProp ser "#ok") else Err (getProp ser "#err")

/-- The loop body of `Result.all`: walks the input once, pushing each
error payload onto `errors` and each success payload onto `values`, in
encounter order, reading each element's `isErr` property and extracting
with `unwrapErr` / `unwrap` exactly as the source loop does. -/
def Result.allLoop : List JSVal → List JSVal → List JSVal → Except String (List JSVal × List JSVal)
  | [], errors, values => .ok (errors, values)
  | result :: rest, errors, values =>
    if toBool (getProp result "isErr") then
      match internalResult.unwrapErr result with
      | .ok e => Result.allLoop rest (errors ++ [e]) values
      | .error msg => .error msg
    else
      match internalResult.unwrap result with
      | .ok v => Result.allLoop rest errors (values ++ [v])
      | .error msg => .error msg

/-- `Result.all`: after the collection loop, returns `Ok` of the gathered
success payloads when no error was seen (`errors.length === 0`), else
`Err` of all gathered error payloads. -/
def Result.all (results : List JSVal) : Except String JSVal :=
  match Result.allLoop results [] [] with
  | .ok (errors, values) =>
    if errors.length = 0 then .ok (Ok (.arr values)) else .ok (Err (.arr errors))
  | .error msg => .error msg

/-- A promise, modelled by its eventual settlement.  An `async` function
whose body throws before its first `await` returns an already-rejected
promise by JS semantics, so that case is the `rejected` constructor. -/
inductive JSPromise where
  | fulfilled (value : JSVal)
  | rejected (reason : JSVal)

/-- `Result.wrapPromise`: `try { return Ok(await promise) } catch (error)
{ return Err(error) }` — the returned promise always fulfills, with `Ok`
of the value or `Err` of the rejection reason. -/
def Result.wrapPromise : JSPromise → JSPromise
  | .fulfilled v => .fulfilled (Ok v)
  | .rejected e => .fulfilled (Err e)

/-- `Result.wrapAsync`: `(...args) => wrapPromise(fn(...args))`. -/
def Result.wrapAsync (fn : JSVal → JSPromise) (args : JSVal) : JSPromise :=
  Result.wrapPromise (fn args)

/-- Statement helper: builds the `Result` a left/right description
denotes (`inl` a success payload, `inr` an error payload). -/
def toRes : JSVal ⊕ JSVal → JSVal
  | .inl v => Ok v
  | .inr e => Err e

/-- Statement helper: the success payloads of a description list, in
order. -/
def okParts : List (JSVal ⊕ JSVal) → List JSVal
  | [] => []
  | .inl v :: rest => v :: okParts rest
  | .inr _ :: rest => okParts rest

/-- Statement helper: the error payloads of a description list, in
order. -/
def errParts : List (JSVal ⊕ JSVal) → List JSVal
  | [] => []
  | .inl _ :: rest => errParts rest
  | .inr e :: rest => e :: errParts rest

/-- C2: JSON round-trip.  For every value `v`, `Maybe.parse(Some(v).json())`
structurally equals `Some(v)`, and `Maybe.parse(None.json())` equals
`None`; for every `v` and `e`, `Result.parse(Ok(v).json())` equals
`Ok(v)` and `Result.parse(Err(e).json())` equals `Err(e)`. -/
theorem json_roundtrip :
    (∀ v, Maybe.parse (internalMaybe.json (Some v)) = Some v) ∧
    Maybe.parse (internalMaybe.json None) = None ∧
    (∀ v, Result.parse (internalResult.json (Ok v)) = Ok v) ∧
    (∀ e, Result.parse (internalResult.json (Err e)) = Err e) :=
  ⟨fun _ => rfl, rfl, fun _ => rfl, fun _ => rfl⟩

/-- C4: unwrap contract.  `Some(v).unwrap()` returns `v` and `None.unwrap()`
throws `"Tried to unwrap None"`; `Ok(v).unwrap()` returns `v`,
`Err(e).unwrap()` throws `"Tried to unwrap Err"`, `Err(e).unwrapErr()`
returns `e`, and `Ok(v).unwrapErr()` throws `"Tried to unwrapErr Ok"`. -/
theorem unwrap_contract :
    (∀ v, internalMaybe.unwrap (Some v) = .ok v) ∧
    internalMaybe.unwrap None = .error "Tried to unwrap None" ∧
    (∀ v, internalResult.unwrap (Ok v) = .ok v) ∧
    (∀ e, internalResult.unwrap (Err e) = .error "Tried to unwrap Err") ∧
    (∀ e, internalResult.unwrapErr (Err e) = .ok e) ∧
    (∀ v, internalResult.unwrapErr (Ok v) = .error "Tried to unwrapErr Ok") :=
  ⟨fun _ => rfl, rfl, fun _ => rfl, fun _ => rfl, fun _ => rfl, fun _ => rfl⟩

/-- C5: flatten laws.  `Some(Some(v)).flatten()` is `Some(v)`,
`Some(None).flatten()` is `None`, `None.flatten()` is `None`;
`Ok(Ok(v)).flatten()` is `Ok(v)`, `Ok(Err(e)).flatten()` is `Err(e)`, and
`Err(e).flatten()` is `Err(e)` for an arbitrary payload `e` — the outer
error short-circuits without inspecting its payload. -/
theorem flatten_laws :
    (∀ v, internalMaybe.flatten (Some (Some v)) = .ok (Some v)) ∧
    internalMaybe.flatten (Some None) = .ok None ∧
    internalMaybe.flatten None = .ok None ∧
    (∀ v, internalResult.flatten (Ok (Ok v)) = .ok (Ok v)) ∧
    (∀ e, internalResult.flatten (Ok (Err e)) = .ok (Err e)) ∧
    (∀ e, internalResult.flatten (Err e) = .ok (Err e)) :=
  ⟨fun _ => rfl, rfl, rfl, fun _ => rfl, fun _ => rfl, fun _ => rfl⟩

/-- C7: map/mapErr independence.  `Ok(v).mapErr(f)` is `Ok(v)` unchanged
and `Err(e).map(f)` is `Err(e)` unchanged, for every function `f` — so
neither operation's outcome consults `f` on the variant it does not
transform. -/
theorem map_mapErr_independence :
    (∀ v f, internalResult.mapErr (Ok v) f = Ok v) ∧
    (∀ e f, internalResult.map (Err e) f = Err e) :=
  ⟨fun _ _ => rfl, fun _ _ => rfl⟩

/-- C9: `Result.all` on the empty array runs the loop zero times, sees no
errors, and returns `Ok` of the empty array. -/
theorem all_empty : Result.all [] = .ok (Ok (.arr [])) := rfl

/-- C10: dispatch precedence of `Result.parse`.  A wire object carrying
both a `"#ok"` and a `"#err"` key decodes to `Ok` of the `"#ok"` payload,
in either key order — the `"#err"` payload is ignored. -/
theorem parse_ok_precedence (a b : JSVal) :
    Result.parse (.obj [("#ok", a), ("#err", b)]) = Ok a ∧
    Result.parse (.obj [("#err", b), ("#ok", a)]) = Ok a :=
  ⟨rfl, rfl⟩

/-- The collection loop of `Result.all` over genuine results appends the
error payloads and success payloads, in encounter order, to its
accumulators and never throws. -/
theorem allLoop_append (l : List (JSVal ⊕ JSVal)) :
    ∀ errors values, Result.allLoop (l.map toRes) errors values =
      .ok (errors ++ errParts l, values ++ okParts l) := by
  induction l with
  | nil => intro errors values; simp [Result.allLoop, errParts, okParts]
  | cons hd tl ih =>
    intro errors values
    cases hd with
    | inl v =>
      simp [toRes, Result.allLoop, Ok, getProp, toBool, internalResult.unwrap,
        ih, okParts, errParts]
    | inr e =>
      simp [toRes, Result.allLoop, Err, getProp, toBool, internalResult.unwrapErr,
        ih, okParts, errParts]

/-- C1: `Result.all` is a fail-slow aggregation.  For a list of results
described by `l` (`inl` a success payload, `inr` an error payload): when
every element is `Ok` it returns `Ok` of the success payloads in input
order, and when at least one element is `Err` it returns `Err` of all the
error payloads encountered, in input order. -/
theorem all_fail_slow (l : List (JSVal ⊕ JSVal)) :
    (errParts l = [] → Result.all (l.map toRes) = .ok (Ok (.arr (okParts l)))) ∧
    (errParts l ≠ [] → Result.all (l.map toRes) = .ok (Err (.arr (errParts l)))) := by
  constructor
  · intro h
    simp [Result.all, allLoop_append, h]
  · intro h
    simp [Result.all, allLoop_append, List.length_eq_zero, h]

/-- Witness for C1 at `[Ok(1), Err("a"), Err("b")]`, which aggregates to
`Err(["a", "b"])`. -/
theorem all_fail_slow_witness :
    Result.all [Ok (.num 1), Err (.str "a"), Err (.str "b")] =
      .ok (Err (.arr [.str "a", .str "b"])) := by
  have h := (all_fail_slow [.inl (.num 1), .inr (.str "a"), .inr (.str "b")]).2
    (by simp [errParts])
  simpa [toRes, errParts] using h

/-- C3: `wrapPromise` resolves to `Ok` of the value when the wrapped
promise fulfills and to `Err` of the rejection reason when it rejects;
`wrapAsync` of an asynchronous computation does the same, and a rejection
at any point of the computation — including before its first suspension
point, in which case the call already yields a rejected promise — is
captured as `Err` inside a fulfilled promise rather than escaping. -/
theorem wrap_captures :
    (∀ v, Result.wrapPromise (.fulfilled v) = .fulfilled (Ok v)) ∧
    (∀ e, Result.wrapPromise (.rejected e) = .fulfilled (Err e)) ∧
    (∀ (fn : JSVal → JSPromise) (a v : JSVal), fn a = .fulfilled v →
      Result.wrapAsync fn a = .fulfilled (Ok v)) ∧
    (∀ (fn : JSVal → JSPromise) (a e : JSVal), fn a = .rejected e →
      Result.wrapAsync fn a = .fulfilled (Err e)) := by
  refine ⟨fun _ => rfl, fun _ => rfl, ?_, ?_⟩
  · intro fn a v h
    simp [Result.wrapAsync, h, Result.wrapPromise]
  · intro fn a e h
    simp [Result.wrapAsync, h, Result.wrapPromise]

/-- Witness for C3: a computation rejecting with `"x"` immediately is
captured as `Err("x")`, and a promise fulfilling with `"y"` becomes
`Ok("y")`. -/
theorem wrap_captures_witness :
    Result.wrapAsync (fun _ => .rejected (.str "x")) .null = .fulfilled (Err (.str "x")) ∧
    Result.wrapPromise (.fulfilled (.str "y")) = .fulfilled (Ok (.str "y")) :=
  ⟨wrap_captures.2.2.2 (fun _ => .rejected (.str "x")) .null (.str "x") rfl,
   wrap_captures.1 (.str "y")⟩

/-- C6: flatten contract violation.  When the payload of a present
container fails the structural shape check for a nested container —
`isMaybe` for a `Some` payload, `isResult` for an `Ok` payload —
`flatten()` throws the type-contract error instead of returning a
value. -/
theorem flatten_contract (v w : JSVal) (hv : isMaybe v = false) (hw : isResult w = false) :
    internalMaybe.flatten (Some v) = .error "Called flatten() on non-Maybe<Maybe<_>>" ∧
    internalResult.flatten (Ok w) = .error "Called flatten() on non-Result<Result<_>>" := by
  constructor
  · simp [internalMaybe.flatten, Some, hv]
  · simp [internalResult.flatten, Ok, hw]

/-- Witness for C6 at the non-container payloads `3` and `"p"`. -/
theorem flatten_contract_witness :
    internalMaybe.flatten (Some (.num 3)) = .error "Called flatten() on non-Maybe<Maybe<_>>" ∧
    internalResult.flatten (Ok (.str "p")) = .error "Called flatten() on non-Result<Result<_>>" :=
  flatten_contract (.num 3) (.str "p") rfl rfl

/-- C8: `Maybe.falsy` sends every JS-falsy input (`0`, `""`, `false`,
`null`, `undefined`, `NaN`) to `None` and every truthy input `v` to
`Some(v)`, while `Maybe.nullish` sends only `null` and `undefined` to
`None` and every other input to `Some` of it; in particular
`Maybe.falsy(0)` is `None` but `Maybe.nullish(0)` is `Some(0)`. -/
theorem falsy_nullish :
    (Maybe.falsy (.num 0) = None ∧ Maybe.falsy (.str "") = None ∧
     Maybe.falsy (.bool false) = None ∧ Maybe.falsy .null = None ∧
     Maybe.falsy .undefined = None ∧ Maybe.falsy .nan = None) ∧
    (∀ v, toBool v = true → Maybe.falsy v = Some v) ∧
    (Maybe.nullish .null = None ∧ Maybe.nullish .undefined = None) ∧
    (∀ v, v ≠ .null → v ≠ .undefined → Maybe.nullish v = Some v) ∧
    (Maybe.falsy (.num 0) = None ∧ Maybe.nullish (.num 0) = Some (.num 0)) := by
  refine ⟨⟨rfl, rfl, rfl, rfl, rfl, rfl⟩, ?_, ⟨rfl, rfl⟩, ?_, rfl, rfl⟩
  · intro v h
    simp [Maybe.falsy, h]
  · intro v h1 h2
    cases v <;> simp_all [Maybe.nullish]

/-- Witness for C8 at the truthy input `1` and the falsy-but-defined
input `0`. -/
theorem falsy_nullish_witness :
    Maybe.falsy (.num 1) = Some (.num 1) ∧ Maybe.nullish (.num 0) = Some (.num 0) :=
  ⟨falsy_nullish.2.1 (.num 1) rfl,
   falsy_nullish.2.2.2.1 (.num 0) (fun h => JSVal.noConfusion h) (fun h => JSVal.noConfusion h)⟩

end Yfp
